import Mathlib

/-!
Verification of the GWInferno basis-spline interpolation engine and its
surrounding distribution helpers.

The definitions below are a shallow embedding of the Python sources
`gwinferno/interpolation.py`, `gwinferno/distributions.py` and
`gwinferno/models/spline_perturbation.py`.  Exact arithmetic over `ℚ` is used
for the purely rational parts (knot construction, the Cox-de Boor recursion,
the M-spline projector); `ℝ` with `Real.exp` / real powers is used where the
code applies transcendental functions.  Fallible Python code (assertion
failures, attribute lookups, keyword-argument binding, guarded division) is
embedded through `Except`.
-/

namespace GWInferno

/-- numpy.linspace a b n: n evenly spaced points from a to b inclusive
(a single point for n = 1, empty for n = 0). -/
def linspace (a b : ℚ) (n : ℕ) : List ℚ :=
  (List.range n).map (fun (j : ℕ) =>
    if n = 1 then a else a + (b - a) * (j : ℚ) / ((n : ℚ) - 1))

/-- BasisSpline.__init__ default interior knots: np.linspace(0, 1, n_df - k + 2)
(interpolation.py line 35).  Natural subtraction: meaningful for k ≤ N, which is
what the spec calls a valid configuration. -/
def defaultInteriorKnots (N k : ℕ) : List ℚ :=
  linspace 0 1 (N - k + 2)

/-- BasisSpline.__init__ proper-mode knot vector (interpolation.py lines 37-38):
dx is the first interior spacing and the whole normalized extended grid is
multiplied by (xhi - xlo).  Note the code multiplies by the range width but
never adds xlo. -/
def properKnots (N k : ℕ) (xlo xhi : ℚ) : List ℚ :=
  let ik := defaultInteriorKnots N k
  let dx := ik.getD 1 0 - ik.getD 0 0
  (linspace (-(dx * ((k : ℚ) - 1))) (1 + dx * ((k : ℚ) - 1)) (ik.length + (k - 1) * 2)).map
    (fun v => (xhi - xlo) * v)

/-- BasisSpline.__init__ clamped-mode knot vector (interpolation.py lines 41-44):
the boundary values repeated k-1 times around the (normalized) interior knots. -/
def clampedKnots (N k : ℕ) (xlo xhi : ℚ) : List ℚ :=
  List.replicate (k - 1) xlo ++ defaultInteriorKnots N k ++ List.replicate (k - 1) xhi

/-- The assert at interpolation.py line 47: len(self.knots) == self.N + self.order,
an AssertionError when violated. -/
def checkKnotLength (N k : ℕ) (ks : List ℚ) : Except String (List ℚ) :=
  if ks.length = N + k then Except.ok ks else Except.error "AssertionError"

/-- BasisSpline.__init__ knot construction (interpolation.py lines 33-47) as a
fallible function: explicit knots are used verbatim, otherwise the default
proper or clamped vector is built; the length assert runs in every case.
Indexing interior_knots[1] with fewer than two interior knots is an IndexError. -/
def basisSplineInitKnots (N k : ℕ) (explicitKnots : Option (List ℚ)) (xlo xhi : ℚ)
    (proper : Bool) : Except String (List ℚ) :=
  match explicitKnots with
  | some ks => checkKnotLength N k ks
  | none =>
    if proper then
      if (defaultInteriorKnots N k).length < 2 then Except.error "IndexError"
      else checkKnotLength N k (properKnots N k xlo xhi)
    else checkKnotLength N k (clampedKnots N k xlo xhi)

namespace BasisSpline

/-- BasisSpline._basis (interpolation.py lines 69-90): the Cox-de Boor recursion
for the M-spline basis.  A knot span below the 1e-6 tolerance short-circuits to
zero before any division; the order-1 base case is the unit-integral indicator
of the half-open span; the recursive case is
(v * k) / ((k - 1) * (knots[i+k] - knots[i])) with
v = (x - knots[i]) * basis(i, k-1) + (knots[i+k] - x) * basis(i+1, k-1).
Knots are a total function ℕ → ℚ standing for the constructed knot array. -/
def _basis (t : ℕ → ℚ) (x : ℚ) : ℕ → ℕ → ℚ
  | _, 0 => 0
  | i, 1 =>
    if t (i + 1) - t i < 1 / 1000000 then 0
    else if t i ≤ x ∧ x < t (i + 1) then 1 / (t (i + 1) - t i) else 0
  | i, (k + 2) =>
    if t (i + k + 2) - t i < 1 / 1000000 then 0
    else
      ((x - t i) * _basis t x i (k + 1) + (t (i + k + 2) - x) * _basis t x (i + 1) (k + 1))
        * ((k : ℚ) + 2) / (((k : ℚ) + 1) * (t (i + k + 2) - t i))

/-- BasisSpline._basis with every division guarded: it returns an error exactly
when a division with zero denominator would be reached.  Same recursion
structure as `_basis`. -/
def _basisE (t : ℕ → ℚ) (x : ℚ) : ℕ → ℕ → Except String ℚ
  | _, 0 => Except.ok 0
  | i, 1 =>
    if t (i + 1) - t i < 1 / 1000000 then Except.ok 0
    else if t (i + 1) - t i = 0 then Except.error "ZeroDivisionError"
    else Except.ok (if t i ≤ x ∧ x < t (i + 1) then 1 / (t (i + 1) - t i) else 0)
  | i, (k + 2) =>
    if t (i + k + 2) - t i < 1 / 1000000 then Except.ok 0
    else
      match _basisE t x i (k + 1), _basisE t x (i + 1) (k + 1) with
      | Except.error e, _ => Except.error e
      | _, Except.error e => Except.error e
      | Except.ok a, Except.ok b =>
        if ((k : ℚ) + 1) * (t (i + k + 2) - t i) = 0 then Except.error "ZeroDivisionError"
        else
          Except.ok (((x - t i) * a + (t (i + k + 2) - x) * b) * ((k : ℚ) + 2)
            / (((k : ℚ) + 1) * (t (i + k + 2) - t i)))

end BasisSpline

namespace BSpline

/-- One entry of BSpline._bases (interpolation.py line 220): the M-spline basis
rescaled by (knots[i + order] - knots[i]) / order. -/
def basisEntry (t : ℕ → ℚ) (i k : ℕ) (x : ℚ) : ℚ :=
  (t (i + k) - t i) / (k : ℚ) * BasisSpline._basis t x i k

/-- BSpline._bases (interpolation.py line 220): the design matrix as a list of
rows, row i holding basis i evaluated at each query point. -/
def _bases (t : ℕ → ℚ) (N k : ℕ) (xs : List ℚ) : List (List ℚ) :=
  (List.range N).map (fun i => xs.map (fun x => basisEntry t i k x))

end BSpline

/-- The knot vector the code builds for BSpline(n_df = 10, k = 4,
xrange = (1, 100)) with default (proper) knots. -/
def knots_1_100 : List ℚ := properKnots 10 4 1 100

/-- Total-function view of `knots_1_100` (out-of-range indices default to 0;
the recursion only reads indices 0..13). -/
def knotF (j : ℕ) : ℚ := knots_1_100.getD j 0


namespace BasisSpline

/-- BasisSpline.norm (interpolation.py lines 56-67): 1 / sum(basis_vols * coefs) when the
normalize flag is set, else 1. -/
def norm {n : ℕ} (normalize : Bool) (basis_vols coefs : Fin n → ℚ) : ℚ :=
  if normalize then 1 / (∑ i, basis_vols i * coefs i) else 1

/-- BasisSpline.project (interpolation.py lines 134-146): the coefficients are first
divided by their sum, the design matrix is contracted against them
(einsum i...,i->...), and the result is multiplied by norm of the already-normalized
coefficients. -/
def project {n : ℕ} {P : Type} (normalize : Bool) (basis_vols : Fin n → ℚ)
    (bases : Fin n → P → ℚ) (coefs : Fin n → ℚ) : P → ℚ :=
  let c := fun i => coefs i / ∑ j, coefs j
  fun p => (∑ i, bases i p * c i) * norm normalize basis_vols c

/-- BasisSpline.eval (interpolation.py lines 148-159): project applied to the design
matrix of the query points (here the design matrix is already the function of points). -/
def eval {n : ℕ} {P : Type} (normalize : Bool) (basis_vols : Fin n → ℚ)
    (basesFn : Fin n → P → ℚ) (coefs : Fin n → ℚ) : P → ℚ :=
  project normalize basis_vols basesFn coefs

/-- BasisSpline.__call__ (interpolation.py lines 161-172): identical to eval. -/
def call {n : ℕ} {P : Type} (normalize : Bool) (basis_vols : Fin n → ℚ)
    (basesFn : Fin n → P → ℚ) (coefs : Fin n → ℚ) : P → ℚ :=
  eval normalize basis_vols basesFn coefs

end BasisSpline

/-- numpy.trapz over points indexed by Fin (m+1): sum of (y[j+1] + y[j]) / 2 times
(x[j+1] - x[j]). -/
noncomputable def trapz {m : ℕ} (y x : Fin (m + 1) → ℝ) : ℝ :=
  ∑ j : Fin m, (y j.succ + y j.castSucc) / 2 * (x j.succ - x j.castSucc)

/-- The nested jnp.trapz(jnp.trapz(vals, gridy), gridx) of interpolation.py line 441:
inner trapezoid along the trailing axis against gy, outer against gx. -/
noncomputable def trapz2 {m1 m2 : ℕ} (vals : Fin (m1 + 1) → Fin (m2 + 1) → ℝ)
    (gy : Fin (m2 + 1) → ℝ) (gx : Fin (m1 + 1) → ℝ) : ℝ :=
  trapz (fun a => trapz (vals a) gy) gx

namespace LogYBSpline

/-- LogYBSpline._project (interpolation.py lines 298-309): exp of the contraction of the
design matrix with the coefficients. -/
noncomputable def _project {n : ℕ} {P : Type} (bases : Fin n → P → ℝ)
    (coefs : Fin n → ℝ) : P → ℝ :=
  fun p => Real.exp (∑ i, bases i p * coefs i)

/-- LogYBSpline.norm (interpolation.py lines 324-335): reciprocal of the trapezoidal
integral of the unnormalized density over the fixed grid, using the precomputed grid
design matrix, when the normalize flag is set. -/
noncomputable def norm {n m : ℕ} (normalize : Bool) (grid : Fin (m + 1) → ℝ)
    (grid_bases : Fin n → Fin (m + 1) → ℝ) (coefs : Fin n → ℝ) : ℝ :=
  if normalize then 1 / trapz (_project grid_bases coefs) grid else 1

/-- LogYBSpline.project (interpolation.py lines 311-322): the unnormalized density times
the normalization factor. -/
noncomputable def project {n m : ℕ} {P : Type} (normalize : Bool) (grid : Fin (m + 1) → ℝ)
    (grid_bases : Fin n → Fin (m + 1) → ℝ) (bases : Fin n → P → ℝ)
    (coefs : Fin n → ℝ) : P → ℝ :=
  fun p => _project bases coefs p * norm normalize grid grid_bases coefs

end LogYBSpline

namespace RectBivariateBasisSpline

/-- RectBivariateBasisSpline._project (interpolation.py lines 467-478): exp of the double
contraction (einsum ij...,ij->...) of the bivariate design matrix with the coefficient
matrix. -/
noncomputable def _project {nx ny : ℕ} {P : Type} (bases : Fin nx → Fin ny → P → ℝ)
    (coefs : Fin nx → Fin ny → ℝ) : P → ℝ :=
  fun p => Real.exp (∑ i, ∑ j, bases i j p * coefs i j)

/-- RectBivariateBasisSpline.norm_2d (interpolation.py lines 431-442): reciprocal of the
double trapezoidal integral (inner against gridy, outer against gridx) of the
unnormalized density over the fixed meshgrid, when the normalize flag is set. -/
noncomputable def norm_2d {nx ny m1 m2 : ℕ} (normalize : Bool)
    (gx : Fin (m1 + 1) → ℝ) (gy : Fin (m2 + 1) → ℝ)
    (grid_bases : Fin nx → Fin ny → Fin (m1 + 1) × Fin (m2 + 1) → ℝ)
    (coefs : Fin nx → Fin ny → ℝ) : ℝ :=
  if normalize then 1 / trapz2 (fun a b => _project grid_bases coefs (a, b)) gy gx else 1

/-- RectBivariateBasisSpline.project (interpolation.py lines 480-491): the unnormalized
density times the 2-D normalization factor. -/
noncomputable def project {nx ny m1 m2 : ℕ} {P : Type} (normalize : Bool)
    (gx : Fin (m1 + 1) → ℝ) (gy : Fin (m2 + 1) → ℝ)
    (grid_bases : Fin nx → Fin ny → Fin (m1 + 1) × Fin (m2 + 1) → ℝ)
    (bases : Fin nx → Fin ny → P → ℝ) (coefs : Fin nx → Fin ny → ℝ) : P → ℝ :=
  fun p => _project bases coefs p * norm_2d normalize gx gy grid_bases coefs

/-- The methods the class RectBivariateBasisSpline actually defines
(interpolation.py lines 391-491).  There is no method named reset_bases: line 444
defines _reset_bases, while line 464 calls self.reset_bases(). -/
def methodNames : List String :=
  ["__init__", "norm_2d", "_reset_bases", "bases", "_project", "project"]

/-- Python attribute lookup on the class: succeeds exactly for the defined methods. -/
def hasAttr (attrName : String) : Bool := methodNames.contains attrName

/-- RectBivariateBasisSpline.bases (interpolation.py lines 448-465) as a fallible call:
the outer-product design matrix is computed, then the method calls
self.reset_bases(), whose attribute lookup fails, so the AttributeError is raised
before out is returned.  (The value out therefore never escapes; the row-major
reshape of lines 461-463 is immaterial to the observable behaviour.) -/
def basesE {nx ny : ℕ} {P : Type} (x_bases : Fin nx → P → ℚ)
    (y_bases : Fin ny → P → ℚ) : Except String (Fin nx → Fin ny → P → ℚ) :=
  let out : Fin nx → Fin ny → P → ℚ := fun i j p => x_bases i p * y_bases j p
  if hasAttr "reset_bases" then Except.ok out
  else Except.error
    "AttributeError: RectBivariateBasisSpline object has no attribute reset_bases"

/-- RectBivariateBasisSpline.__init__ (interpolation.py lines 425-429): when the
normalize flag is set, construction immediately calls self.bases on the meshgrid, so
any exception from bases propagates out of the constructor. -/
def initGridBasesE {nx ny : ℕ} {P : Type} (normalize : Bool)
    (x_bases : Fin nx → P → ℚ) (y_bases : Fin ny → P → ℚ) : Except String Unit :=
  if normalize then Except.map (fun _ => ()) (basesE x_bases y_bases) else Except.ok ()

end RectBivariateBasisSpline

namespace PowerlawBasisSplinePrimaryPowerlawRatio

/-- The raw smoothing-window formula 1 / (exp(delta_m / sm + delta_m / (sm - delta_m)) + 1)
of spline_perturbation.py line 52, modelled as an optional value: none stands for the
non-finite float (NaN / Inf) the formula produces when a denominator vanishes. -/
noncomputable def smoothingWindowRaw (sm delta_m : ℝ) : Option ℝ :=
  if sm = 0 ∨ sm - delta_m = 0 then none
  else some (1 / (Real.exp (delta_m / sm + delta_m / (sm - delta_m)) + 1))

/-- PowerlawBasisSplinePrimaryPowerlawRatio.smoothing (spline_perturbation.py lines
47-56), parametric in the raw window formula F so that the NaN/Inf guard can be stated
for every possible formula outcome: window is the formula inside the open smoothing
region and 1 outside it; a non-finite window (none) is replaced by 1 (the
isinf-or-isnan where of line 55, here Option.getD); finally the result is 0 wherever
ms is at or below mmin. -/
noncomputable def smoothingWith (F : ℝ → ℝ → Option ℝ) (ms mmin delta_m : ℝ) : ℝ :=
  let sm := ms - mmin
  let window : Option ℝ := if 0 < sm ∧ sm < delta_m then F sm delta_m else some 1
  if ms ≤ mmin then 0 else window.getD 1

/-- The smoothing method itself: smoothingWith instantiated at the actual formula. -/
noncomputable def smoothing (ms mmin delta_m : ℝ) : ℝ :=
  smoothingWith smoothingWindowRaw ms mmin delta_m

end PowerlawBasisSplinePrimaryPowerlawRatio

/-- powerlaw_pdf (distributions.py lines 65-77): prob = xx ** alpha, returned wherever
low <= xx <= high, with the floor value returned outside that interval. -/
noncomputable def powerlaw_pdf (xx alpha low high floor : ℝ) : ℝ :=
  if xx < low ∨ high < xx then floor else xx ^ alpha

/-- logistic_unit (distributions.py lines 31-44): its positional parameters are
(x, x0, sgn, sc). -/
noncomputable def logistic_unit (x x0 sgn sc : ℝ) : ℝ :=
  1 / (1 + Real.exp (sgn * sc * (x - x0)))

/-- The parameter names of def logistic_unit(x, x0, sgn=1, sc=4). -/
def logistic_unit_param_names : List String := ["x", "x0", "sgn", "sc"]

/-- The keyword names used at the call site inside powerlaw_logit_pdf
(distributions.py line 61): logistic_unit(xx, high, sign=1.0, a=fall_off). -/
def powerlaw_logit_call_keywords : List String := ["sign", "a"]

/-- Python keyword binding: a call is accepted only if every keyword matches a declared
parameter name; otherwise the call raises TypeError before the body runs. -/
def keywordsAccepted (params kwargs : List String) : Bool :=
  kwargs.all (fun s => params.contains s)

/-- powerlaw_logit_pdf (distributions.py lines 47-62) as a fallible call: the body
multiplies xx ** alpha by logistic_unit called with the keywords sign and a; the call
only produces a value if those keywords bind, and raises TypeError otherwise.  (In the
unreachable accepting branch the defaults sgn = 1, sc = 4 stand in, since the intended
binding of the mismatched keywords is unknowable.) -/
noncomputable def powerlaw_logit_pdf (xx alpha high fall_off : ℝ) : Except String ℝ :=
  if keywordsAccepted logistic_unit_param_names powerlaw_logit_call_keywords then
    Except.ok (xx ^ alpha * logistic_unit xx high 1 4)
  else
    Except.error "TypeError: logistic_unit got an unexpected keyword argument"

/-- The knot vector the code builds for BasisSpline(n_df = 5, k = 4, xrange = (1, 2))
in clamped (proper=False) mode: the boundary values 1 and 2 stacked k-1 times around
interior knots left on the normalized [0, 1] grid, giving the non-monotone vector
[1, 1, 1, 0, 1/2, 1, 2, 2, 2] of length N + k = 9, which passes the length assert. -/
def clampedKnots_1_2 : List ℚ := clampedKnots 5 4 1 2

/-- Total-function view of `clampedKnots_1_2` (out-of-range indices default to 0;
the recursion only reads indices 0..8). -/
def clampedKnotF (j : ℕ) : ℚ := clampedKnots_1_2.getD j 0

end GWInferno

namespace GWInferno

/-- Length of numpy.linspace output. -/
theorem linspace_length (a b : ℚ) (n : ℕ) : (linspace a b n).length = n := by
  simp only [linspace, List.length_map, List.length_range]

/-- The knot vector of BSpline(n_df = 10, k = 4, xrange = (1, 100)) with default proper
knots, evaluated: the interior knots run from 0 to 99 (not from 1 to 100) in steps of
99/7, with three extension knots of the same spacing on each side. -/
theorem knots_1_100_eval : knots_1_100 =
    [-(297/7), -(198/7), -(99/7), 0, 99/7, 198/7, 297/7, 396/7, 495/7, 594/7, 99,
      792/7, 891/7, 990/7] := by
  norm_num [knots_1_100, properKnots, defaultInteriorKnots, linspace, List.range_succ,
    List.range_zero]

/-- C6: for every valid configuration (1 ≤ k ≤ N) the default knot construction, proper or
clamped, succeeds with a knot vector of length exactly N + k; and explicit knots whose
length differs from N + k make construction fail fast with an AssertionError, never
silently truncating or padding. -/
theorem claim_C6_knot_length_invariant (N k : ℕ) (xlo xhi : ℚ) (proper : Bool)
    (hk1 : 1 ≤ k) (hkN : k ≤ N) :
    (∃ ks, basisSplineInitKnots N k none xlo xhi proper = Except.ok ks ∧ ks.length = N + k)
    ∧ ∀ ks : List ℚ, ks.length ≠ N + k →
      basisSplineInitKnots N k (some ks) xlo xhi proper = Except.error "AssertionError" := by
  have hik : (defaultInteriorKnots N k).length = N - k + 2 := by
    simp only [defaultInteriorKnots, linspace_length]
  constructor
  · cases proper with
    | false =>
      have hL : (clampedKnots N k xlo xhi).length = N + k := by
        simp only [clampedKnots, List.length_append, List.length_replicate, hik]
        omega
      exact ⟨clampedKnots N k xlo xhi, by simp [basisSplineInitKnots, checkKnotLength, hL], hL⟩
    | true =>
      have h2 : ¬ (defaultInteriorKnots N k).length < 2 := by omega
      have hL : (properKnots N k xlo xhi).length = N + k := by
        simp only [properKnots, List.length_map, linspace_length, hik]
        omega
      exact ⟨properKnots N k xlo xhi,
        by simp [basisSplineInitKnots, checkKnotLength, h2, hL], hL⟩
  · intro ks hks
    simp [basisSplineInitKnots, checkKnotLength, hks]

/-- Witness for C6 at the concrete valid configuration N = 6, k = 4 over (0, 1). -/
theorem claim_C6_witness :
    (∃ ks, basisSplineInitKnots 6 4 none 0 1 true = Except.ok ks ∧ ks.length = 6 + 4)
    ∧ ∀ ks : List ℚ, ks.length ≠ 6 + 4 →
      basisSplineInitKnots 6 4 (some ks) 0 1 true = Except.error "AssertionError" :=
  claim_C6_knot_length_invariant 6 4 0 1 true (by norm_num) (by norm_num)

/-- C3: the claim fails on the code.  At N = 5, k = 4, xrange = (1, 2) with default proper
knots, the code multiplies the normalized extended grid by (xmax - xmin) but never adds
xmin, so the first interior knot (index k - 1 = 3) is 0 rather than xmin = 1 and the last
interior knot (index N = 5) is 1 rather than xmax = 2. -/
theorem claim_C3_default_knot_placement :
    basisSplineInitKnots 5 4 none 1 2 true = Except.ok (properKnots 5 4 1 2)
    ∧ properKnots 5 4 1 2 = [-(3/2), -1, -(1/2), 0, 1/2, 1, 3/2, 2, 5/2]
    ∧ (properKnots 5 4 1 2).getD 3 0 = 0
    ∧ (properKnots 5 4 1 2).getD 3 0 ≠ 1
    ∧ (properKnots 5 4 1 2).getD 5 0 ≠ 2 := by
  have h : properKnots 5 4 1 2 = [-(3/2), -1, -(1/2), 0, 1/2, 1, 3/2, 2, 5/2] := by
    norm_num [properKnots, defaultInteriorKnots, linspace, List.range_succ, List.range_zero]
  refine ⟨rfl, h, ?_, ?_, ?_⟩ <;> simp [h]

set_option maxHeartbeats 4000000 in
/-- C1: partition of unity evaluated on the code.  For BSpline(n_df = 10, k = 4,
xrange = (1, 100)) with default proper knots, the design-matrix columns at
x = 1, 10, 50, 100 are listed exactly (all entries non-negative, 10 rows); the column
sums at x = 1, 10, 50 are exactly 1; every basis has local knot span 396/7 (far above
the 1e-6 degeneracy tolerance); yet at x = 999/10, strictly inside (1, 100), the column
sum is 7985657/7986000, missing 1 by more than the 1e-6 tolerance, because the knot
construction never adds xmin and the interior knots span [0, 99] instead of [1, 100]. -/
theorem claim_C1_partition_of_unity_at_inputs :
    basisSplineInitKnots 10 4 none 1 100 true = Except.ok knots_1_100
    ∧ (Finset.range 10).sum (fun i => BSpline.basisEntry knotF i 4 1) = 1
    ∧ (Finset.range 10).sum (fun i => BSpline.basisEntry knotF i 4 10) = 1
    ∧ (Finset.range 10).sum (fun i => BSpline.basisEntry knotF i 4 50) = 1
    ∧ (List.range 10).map (fun i => BSpline.basisEntry knotF i 4 1) =
        [389344/2910897, 1284373/1940598, 198274/970299, 343/5821794, 0, 0, 0, 0, 0, 0]
    ∧ (List.range 10).map (fun i => BSpline.basisEntry knotF i 4 100) =
        [0, 0, 0, 0, 0, 0, 0, 389344/2910897, 1284373/1940598, 198274/970299]
    ∧ (List.range 10).map (fun i => knotF (i + 4) - knotF i) =
        List.replicate 10 (396/7)
    ∧ (1/1000000 : ℚ) < 396/7
    ∧ (1 : ℚ) < 999/10 ∧ (999/10 : ℚ) < 100
    ∧ (Finset.range 10).sum (fun i => BSpline.basisEntry knotF i 4 (999/10)) =
        7985657/7986000
    ∧ (1/1000000 : ℚ) < 1 - 7985657/7986000 := by
  refine ⟨rfl, ?_, ?_, ?_, ?_, ?_, ?_, by norm_num, by norm_num, by norm_num, ?_,
    by norm_num⟩
  · norm_num [Finset.sum_range_succ, Finset.sum_range_zero, BSpline.basisEntry,
      BasisSpline._basis, knotF, knots_1_100_eval]
  · norm_num [Finset.sum_range_succ, Finset.sum_range_zero, BSpline.basisEntry,
      BasisSpline._basis, knotF, knots_1_100_eval]
  · norm_num [Finset.sum_range_succ, Finset.sum_range_zero, BSpline.basisEntry,
      BasisSpline._basis, knotF, knots_1_100_eval]
  · norm_num [List.range_succ, List.range_zero, BSpline.basisEntry, BasisSpline._basis,
      knotF, knots_1_100_eval]
  · norm_num [List.range_succ, List.range_zero, BSpline.basisEntry, BasisSpline._basis,
      knotF, knots_1_100_eval]
  · norm_num [List.range_succ, List.range_zero, knotF, knots_1_100_eval, List.replicate]
  · norm_num [Finset.sum_range_succ, Finset.sum_range_zero, BSpline.basisEntry,
      BasisSpline._basis, knotF, knots_1_100_eval]

end GWInferno

namespace GWInferno

/-- Compact support of the M-spline recursion: with non-decreasing knots, basis i of
order k vanishes at every x outside [knots i, knots (i+k)]. -/
theorem _basis_support (t : ℕ → ℚ) (hm : ∀ j, t j ≤ t (j + 1)) (x : ℚ) :
    ∀ k i, (x < t i ∨ t (i + k) < x) → BasisSpline._basis t x i k = 0 := by
  intro k
  induction k using Nat.strong_induction_on with
  | _ k ih =>
    match k with
    | 0 => intro i h; rfl
    | 1 =>
      intro i h
      rw [BasisSpline._basis]
      split
      · rfl
      · rw [if_neg]
        rintro ⟨hle, hlt⟩
        rcases h with h | h
        · exact absurd hle (not_le.mpr h)
        · exact absurd h (not_lt.mpr hlt.le)
    | k + 2 =>
      intro i h
      rw [BasisSpline._basis]
      split
      · rfl
      · have h1 : BasisSpline._basis t x i (k + 1) = 0 := by
          apply ih (k + 1) (Nat.lt_succ_self _)
          rcases h with h | h
          · exact Or.inl h
          · refine Or.inr (lt_of_le_of_lt ?_ h)
            exact hm (i + k + 1)
        have h2 : BasisSpline._basis t x (i + 1) (k + 1) = 0 := by
          apply ih (k + 1) (Nat.lt_succ_self _)
          rcases h with h | h
          · exact Or.inl (lt_of_lt_of_le h (hm i))
          · refine Or.inr ?_
            have : i + 1 + (k + 1) = i + k + 2 := by omega
            rw [this]
            exact h
        rw [h1, h2]
        ring

/-- Degenerate span: whenever knots (i+k) - knots i is below the 1e-6 tolerance the
basis is identically zero (the first branch of every case of the recursion). -/
theorem _basis_degenerate (t : ℕ → ℚ) (x : ℚ) (i k : ℕ)
    (h : t (i + k) - t i < 1 / 1000000) : BasisSpline._basis t x i k = 0 := by
  match k with
  | 0 => rfl
  | 1 => rw [BasisSpline._basis, if_pos h]
  | k + 2 =>
    rw [BasisSpline._basis, if_pos (by rw [Nat.add_assoc]; exact h)]

/-- The guarded recursion never reaches a division by zero: every denominator sits under
a branch that already guaranteed the local knot span is at least 1e-6. -/
theorem _basisE_no_error (t : ℕ → ℚ) (x : ℚ) :
    ∀ k i, BasisSpline._basisE t x i k = Except.ok (BasisSpline._basis t x i k) := by
  intro k
  induction k using Nat.strong_induction_on with
  | _ k ih =>
    match k with
    | 0 => intro i; rfl
    | 1 =>
      intro i
      rw [BasisSpline._basisE, BasisSpline._basis]
      split
      · rfl
      · rename_i hdeg
        rw [if_neg]
        intro h0
        exact hdeg (by rw [h0]; norm_num)
    | k + 2 =>
      intro i
      rw [BasisSpline._basisE, BasisSpline._basis]
      split
      · rfl
      · rename_i hdeg
        rw [ih (k + 1) (Nat.lt_succ_self _) i, ih (k + 1) (Nat.lt_succ_self _) (i + 1)]
        dsimp only
        rw [if_neg]
        intro h0
        rcases mul_eq_zero.mp h0 with h0 | h0
        · have hpos : (0 : ℚ) < (k : ℚ) + 1 := by positivity
          exact absurd h0 (ne_of_gt hpos)
        · exact hdeg (by rw [h0]; norm_num)

/-- C4, amended: compact support and degeneracy of BasisSpline._basis.  For every spline
whose knot vector is non-decreasing (the data-model invariant) the basis of order k
vanishes at every x outside [knots i, knots (i+k)]; for arbitrary knots, a local knot
span below the 1e-6 tolerance makes the basis identically zero, and the recursion with
every division guarded never raises, returning exactly the unguarded value.  The
non-decreasing premise cannot be dropped: the clamped default construction with
xmin distinct from 0 builds a constructible non-monotone knot vector on which the code
violates compact support. -/
theorem claim_C4_compact_support_degeneracy (t : ℕ → ℚ) (x : ℚ) (i k : ℕ) :
    ((∀ j, t j ≤ t (j + 1)) → (x < t i ∨ t (i + k) < x) → BasisSpline._basis t x i k = 0)
    ∧ (t (i + k) - t i < 1 / 1000000 → BasisSpline._basis t x i k = 0)
    ∧ BasisSpline._basisE t x i k = Except.ok (BasisSpline._basis t x i k) :=
  ⟨fun hm h => _basis_support t hm x k i h,
   fun h => _basis_degenerate t x i k h,
   _basisE_no_error t x k i⟩

/-- Witness for C4: the integer knot vector t j = j at x = 5 outside the support of
basis 0 of order 4 (compact support gives 0, the guarded recursion agrees), and the
everywhere-constant knot vector (degenerate span) at the same point. -/
theorem claim_C4_witness :
    BasisSpline._basis (fun j => (j : ℚ)) 5 0 4 = 0
    ∧ BasisSpline._basisE (fun j => (j : ℚ)) 5 0 4 = Except.ok 0
    ∧ BasisSpline._basis (fun _ => (0 : ℚ)) 5 0 4 = 0 := by
  have h1 := claim_C4_compact_support_degeneracy (fun j => (j : ℚ)) 5 0 4
  have h2 := claim_C4_compact_support_degeneracy (fun _ => (0 : ℚ)) 5 0 4
  have hmono : ∀ j : ℕ, ((j : ℚ)) ≤ ((j + 1 : ℕ) : ℚ) := by
    intro j
    exact_mod_cast Nat.le_succ j
  have hz : BasisSpline._basis (fun j => (j : ℚ)) 5 0 4 = 0 :=
    h1.1 hmono (Or.inr (by norm_num))
  refine ⟨hz, ?_, h2.2.1 (by norm_num)⟩
  rw [h1.2.2, hz]

/-- C4, counterexample to the claim as stated over every constructed BasisSpline: the
clamped default construction over (1, 2) with N = 5, k = 4 succeeds (the knot vector
[1, 1, 1, 0, 1/2, 1, 2, 2, 2] has length N + k = 9, so the assert passes), yet its
interior knots sit on the normalized [0, 1] grid while the boundary stacks use xmin and
xmax, so the knots are not non-decreasing, and _basis at x = 1/4, basis 2, order 4
evaluates to 7/16, nonzero although 1/4 lies outside [knots 2, knots 6] = [1, 2]. -/
theorem claim_C4_counterexample :
    basisSplineInitKnots 5 4 none 1 2 false = Except.ok clampedKnots_1_2
    ∧ clampedKnots_1_2.length = 5 + 4
    ∧ clampedKnots_1_2 = [1, 1, 1, 0, 1/2, 1, 2, 2, 2]
    ∧ clampedKnotF 2 = 1 ∧ clampedKnotF 6 = 2
    ∧ (1/4 : ℚ) < clampedKnotF 2
    ∧ BasisSpline._basis clampedKnotF (1/4) 2 4 = 7/16
    ∧ BasisSpline._basis clampedKnotF (1/4) 2 4 ≠ 0 := by
  have heval : clampedKnots_1_2 = [1, 1, 1, 0, 1/2, 1, 2, 2, 2] := by
    norm_num [clampedKnots_1_2, clampedKnots, defaultInteriorKnots, linspace,
      List.range_succ, List.range_zero, List.replicate]
  have hb : BasisSpline._basis clampedKnotF (1/4) 2 4 = 7/16 := by
    norm_num [BasisSpline._basis, clampedKnotF, heval]
  refine ⟨rfl, by rw [heval]; rfl, heval, ?_, ?_, ?_, hb, by rw [hb]; norm_num⟩
  · norm_num [clampedKnotF, heval]
  · norm_num [clampedKnotF, heval]
  · norm_num [clampedKnotF, heval]

end GWInferno

namespace GWInferno

/-- C10: coefficient scale invariance of the M-spline projector.  Scaling the coefficient
vector by any nonzero constant leaves BasisSpline.project unchanged (and hence eval and
call), because the coefficients are first divided by their sum and the normalization
factor is computed from the normalized coefficients. -/
theorem claim_C10_projector_scale_invariance {n : ℕ} {P : Type} (normalize : Bool)
    (basis_vols : Fin n → ℚ) (bases basesFn : Fin n → P → ℚ)
    (coefs : Fin n → ℚ) (c : ℚ) (hs : (∑ j, coefs j) ≠ 0) (hc : c ≠ 0) :
    BasisSpline.project normalize basis_vols bases (fun i => c * coefs i)
      = BasisSpline.project normalize basis_vols bases coefs
    ∧ BasisSpline.eval normalize basis_vols basesFn (fun i => c * coefs i)
      = BasisSpline.eval normalize basis_vols basesFn coefs
    ∧ BasisSpline.call normalize basis_vols basesFn (fun i => c * coefs i)
      = BasisSpline.call normalize basis_vols basesFn coefs := by
  have key : ∀ i : Fin n, (c * coefs i) / (∑ j, c * coefs j) = coefs i / (∑ j, coefs j) := by
    intro i
    rw [← Finset.mul_sum, mul_div_mul_left _ _ hc]
  have hp : ∀ (b : Fin n → P → ℚ),
      BasisSpline.project normalize basis_vols b (fun i => c * coefs i)
        = BasisSpline.project normalize basis_vols b coefs := by
    intro b
    funext p
    simp only [BasisSpline.project, key]
  exact ⟨hp bases, hp basesFn, hp basesFn⟩

/-- Witness for C10 with one basis function, basis volume 1, design value 2, coefficient
3 scaled by 2. -/
theorem claim_C10_witness :
    (∑ j : Fin 1, (3 : ℚ)) ≠ 0 ∧ (2 : ℚ) ≠ 0
    ∧ BasisSpline.project true (fun _ : Fin 1 => (1 : ℚ))
        (fun _ : Fin 1 => fun _ : Fin 1 => (2 : ℚ)) (fun _ : Fin 1 => 2 * 3)
      = BasisSpline.project true (fun _ : Fin 1 => (1 : ℚ))
        (fun _ : Fin 1 => fun _ : Fin 1 => (2 : ℚ)) (fun _ : Fin 1 => 3) := by
  refine ⟨by norm_num [Fin.sum_univ_one], by norm_num, ?_⟩
  exact (claim_C10_projector_scale_invariance true (fun _ => 1) (fun _ _ => 2) (fun _ _ => 2)
    (fun _ => 3) 2 (by norm_num [Fin.sum_univ_one]) (by norm_num)).1

/-- Multiplying the integrand by a constant scales the trapezoidal integral. -/
theorem trapz_mul_const {m : ℕ} (y x : Fin (m + 1) → ℝ) (c : ℝ) :
    trapz (fun p => y p * c) x = trapz y x * c := by
  simp only [trapz, Finset.sum_mul]
  refine Finset.sum_congr rfl (fun j _ => by ring)

/-- Multiplying the integrand by a constant scales the double trapezoidal integral. -/
theorem trapz2_mul_const {m1 m2 : ℕ} (vals : Fin (m1 + 1) → Fin (m2 + 1) → ℝ)
    (gy : Fin (m2 + 1) → ℝ) (gx : Fin (m1 + 1) → ℝ) (c : ℝ) :
    trapz2 (fun a b => vals a b * c) gy gx = trapz2 vals gy gx * c := by
  simp only [trapz2]
  have h1 : (fun a => trapz (fun b => vals a b * c) gy) = fun a => trapz (vals a) gy * c := by
    funext a
    exact trapz_mul_const (vals a) gy c
  rw [h1, trapz_mul_const]

/-- C5: normalization round-trip.  Whenever the trapezoidal integral of the unnormalized
density over the fixed grid is nonzero, the trapezoidal integral of the density returned
by project is exactly 1: for the 1-D normalizer (LogYBSpline, trapz of the projected
density over its grid) and for the 2-D normalizer (RectBivariateBasisSpline, double
trapz over the meshgrid, inner axis first). -/
theorem claim_C5_normalization_roundtrip {n m nx ny m1 m2 : ℕ}
    (grid : Fin (m + 1) → ℝ) (grid_bases : Fin n → Fin (m + 1) → ℝ) (coefs : Fin n → ℝ)
    (gx : Fin (m1 + 1) → ℝ) (gy : Fin (m2 + 1) → ℝ)
    (grid_bases2 : Fin nx → Fin ny → Fin (m1 + 1) × Fin (m2 + 1) → ℝ)
    (coefs2 : Fin nx → Fin ny → ℝ)
    (h1 : trapz (LogYBSpline._project grid_bases coefs) grid ≠ 0)
    (h2 : trapz2 (fun a b => RectBivariateBasisSpline._project grid_bases2 coefs2 (a, b))
      gy gx ≠ 0) :
    trapz (LogYBSpline.project true grid grid_bases grid_bases coefs) grid = 1
    ∧ trapz2 (fun a b => RectBivariateBasisSpline.project true gx gy grid_bases2
        grid_bases2 coefs2 (a, b)) gy gx = 1 := by
  constructor
  · have hrw : LogYBSpline.project true grid grid_bases grid_bases coefs
        = fun p => LogYBSpline._project grid_bases coefs p
          * (1 / trapz (LogYBSpline._project grid_bases coefs) grid) := by
      funext p
      simp [LogYBSpline.project, LogYBSpline.norm]
    rw [hrw, trapz_mul_const]
    field_simp
  · have hrw : (fun a b => RectBivariateBasisSpline.project true gx gy grid_bases2
          grid_bases2 coefs2 (a, b))
        = fun a b => RectBivariateBasisSpline._project grid_bases2 coefs2 (a, b)
          * (1 / trapz2 (fun a b =>
              RectBivariateBasisSpline._project grid_bases2 coefs2 (a, b)) gy gx) := by
      funext a b
      simp [RectBivariateBasisSpline.project, RectBivariateBasisSpline.norm_2d]
    rw [hrw, trapz2_mul_const]
    field_simp

/-- Witness for C5 on the two-point grid 0, 1 with an empty basis set, where the
unnormalized density is exp 0 = 1 and its (double) trapezoidal integral is 1. -/
theorem claim_C5_witness :
    trapz (LogYBSpline.project true (fun j : Fin 2 => (j : ℝ))
      (fun (i : Fin 0) (_ : Fin 2) => (0 : ℝ))
      (fun (i : Fin 0) (_ : Fin 2) => (0 : ℝ)) (fun i : Fin 0 => 0))
      (fun j : Fin 2 => (j : ℝ)) = 1
    ∧ trapz2 (fun a b => RectBivariateBasisSpline.project true
        (fun j : Fin 2 => (j : ℝ)) (fun j : Fin 2 => (j : ℝ))
        (fun (i : Fin 0) (j : Fin 0) (_ : Fin 2 × Fin 2) => (0 : ℝ))
        (fun (i : Fin 0) (j : Fin 0) (_ : Fin 2 × Fin 2) => (0 : ℝ))
        (fun (i : Fin 0) (j : Fin 0) => (0 : ℝ)) (a, b))
        (fun j : Fin 2 => (j : ℝ)) (fun j : Fin 2 => (j : ℝ)) = 1 := by
  have e1 : LogYBSpline._project (fun (i : Fin 0) (_ : Fin 2) => (0 : ℝ))
      (fun i : Fin 0 => 0) = fun _ => 1 := by
    funext p
    simp [LogYBSpline._project]
  have e2 : RectBivariateBasisSpline._project
      (fun (i : Fin 0) (j : Fin 0) (_ : Fin 2 × Fin 2) => (0 : ℝ))
      (fun (i : Fin 0) (j : Fin 0) => (0 : ℝ)) = fun _ => 1 := by
    funext p
    simp [RectBivariateBasisSpline._project]
  have t1 : trapz (fun _ : Fin 2 => (1 : ℝ)) (fun j : Fin 2 => (j : ℝ)) = 1 := by
    simp [trapz, Fin.sum_univ_one]
  have h1 : trapz (LogYBSpline._project (fun (i : Fin 0) (_ : Fin 2) => (0 : ℝ))
      (fun i : Fin 0 => 0)) (fun j : Fin 2 => (j : ℝ)) ≠ 0 := by
    rw [e1, t1]
    norm_num
  have h2 : trapz2 (fun a b => RectBivariateBasisSpline._project
      (fun (i : Fin 0) (j : Fin 0) (_ : Fin 2 × Fin 2) => (0 : ℝ))
      (fun (i : Fin 0) (j : Fin 0) => (0 : ℝ)) (a, b))
      (fun j : Fin 2 => (j : ℝ)) (fun j : Fin 2 => (j : ℝ)) ≠ 0 := by
    have : (fun (a : Fin 2) (b : Fin 2) => RectBivariateBasisSpline._project
        (fun (i : Fin 0) (j : Fin 0) (_ : Fin 2 × Fin 2) => (0 : ℝ))
        (fun (i : Fin 0) (j : Fin 0) => (0 : ℝ)) (a, b)) = fun _ _ => 1 := by
      funext a b
      rw [e2]
    rw [this]
    simp only [trapz2, t1]
    norm_num
  exact claim_C5_normalization_roundtrip _ _ _ _ _ _ _ h1 h2

end GWInferno

namespace GWInferno

open PowerlawBasisSplinePrimaryPowerlawRatio in
/-- C7: the smoothing window returns exactly 0 at and below ms = mmin, exactly 1 at
ms = mmin + delta_m and everywhere above it, and whenever the raw sigmoid formula F
evaluates to a non-finite value (none) at a point above mmin, the result is the
replacement value 1 rather than a propagated NaN/Inf. -/
theorem claim_C7_smoothing_window (F : ℝ → ℝ → Option ℝ) (ms mmin delta_m : ℝ)
    (hd : 0 < delta_m) :
    (ms ≤ mmin → smoothing ms mmin delta_m = 0)
    ∧ (mmin + delta_m ≤ ms → smoothing ms mmin delta_m = 1)
    ∧ (mmin < ms → F (ms - mmin) delta_m = none → smoothingWith F ms mmin delta_m = 1) := by
  refine ⟨?_, ?_, ?_⟩
  · intro h
    simp only [smoothing, smoothingWith]
    rw [if_pos h]
  · intro h
    have hms : ¬ ms ≤ mmin := by linarith
    have hreg : ¬ (0 < ms - mmin ∧ ms - mmin < delta_m) := by
      rintro ⟨_, h2⟩
      linarith
    simp only [smoothing, smoothingWith]
    rw [if_neg hms, if_neg hreg]
    rfl
  · intro hms hF
    have hms2 : ¬ ms ≤ mmin := not_le.mpr hms
    simp only [smoothingWith]
    rw [if_neg hms2]
    by_cases hreg : 0 < ms - mmin ∧ ms - mmin < delta_m
    · rw [if_pos hreg, hF]
      rfl
    · rw [if_neg hreg]
      rfl

open PowerlawBasisSplinePrimaryPowerlawRatio in
/-- Witness for C7 at mmin = 3, delta_m = 1: the window is 0 at ms = 2, 1 at ms = 5, and
1 at ms = 3.5 under a formula that always returns a non-finite value. -/
theorem claim_C7_witness :
    PowerlawBasisSplinePrimaryPowerlawRatio.smoothing 2 3 1 = 0
    ∧ PowerlawBasisSplinePrimaryPowerlawRatio.smoothing 5 3 1 = 1
    ∧ PowerlawBasisSplinePrimaryPowerlawRatio.smoothingWith (fun _ _ => none) (7/2) 3 1 = 1 := by
  refine ⟨?_, ?_, ?_⟩
  · exact (claim_C7_smoothing_window (fun _ _ => none) 2 3 1 (by norm_num)).1 (by norm_num)
  · exact (claim_C7_smoothing_window (fun _ _ => none) 5 3 1 (by norm_num)).2.1 (by norm_num)
  · exact (claim_C7_smoothing_window (fun _ _ => none) (7/2) 3 1 (by norm_num)).2.2
      (by norm_num) rfl

/-- C8: the truncated power law returns exactly the floor value at every point below low
or above high, and exactly xx ^ alpha at every point of [low, high]. -/
theorem claim_C8_powerlaw_floor (xx alpha low high floor : ℝ) :
    ((xx < low ∨ high < xx) → powerlaw_pdf xx alpha low high floor = floor)
    ∧ (low ≤ xx → xx ≤ high → powerlaw_pdf xx alpha low high floor = xx ^ alpha) := by
  constructor
  · intro h
    simp only [powerlaw_pdf]
    rw [if_pos h]
  · intro h1 h2
    simp only [powerlaw_pdf]
    rw [if_neg]
    push_neg
    exact ⟨h1, h2⟩

/-- Witness for C8: outside [0, 3] the value is the floor 7; at xx = 2 inside [0, 3] the
value is 2 ^ 2. -/
theorem claim_C8_witness :
    powerlaw_pdf 5 2 0 3 7 = 7 ∧ powerlaw_pdf 2 2 0 3 7 = (2 : ℝ) ^ (2 : ℝ) :=
  ⟨(claim_C8_powerlaw_floor 5 2 0 3 7).1 (Or.inr (by norm_num)),
   (claim_C8_powerlaw_floor 2 2 0 3 7).2 (by norm_num) (by norm_num)⟩

/-- C9: powerlaw_logit_pdf calls logistic_unit with the keyword names sign and a, which
are not among the parameter names (x, x0, sgn, sc), so keyword binding fails and every
evaluation of powerlaw_logit_pdf terminates with a TypeError instead of returning a
soft-truncated power-law density. -/
theorem claim_C9_keyword_mismatch (xx alpha high fall_off : ℝ) :
    keywordsAccepted logistic_unit_param_names powerlaw_logit_call_keywords = false
    ∧ powerlaw_logit_pdf xx alpha high fall_off
      = Except.error "TypeError: logistic_unit got an unexpected keyword argument" :=
  ⟨rfl, rfl⟩

open RectBivariateBasisSpline in
/-- C2: the claim fails on the code.  RectBivariateBasisSpline.bases always raises
AttributeError, because line 464 calls self.reset_bases() while the class only defines
_reset_bases; consequently construction with normalize=True (which calls bases on the
meshgrid) raises as well, for every input. -/
theorem claim_C2_bases_attribute_error {nx ny : ℕ} {P : Type}
    (x_bases : Fin nx → P → ℚ) (y_bases : Fin ny → P → ℚ) :
    RectBivariateBasisSpline.basesE x_bases y_bases
      = Except.error
        "AttributeError: RectBivariateBasisSpline object has no attribute reset_bases"
    ∧ RectBivariateBasisSpline.initGridBasesE true x_bases y_bases
      = Except.error
        "AttributeError: RectBivariateBasisSpline object has no attribute reset_bases" :=
  ⟨rfl, rfl⟩

end GWInferno
